import Mathlib

/-
  Verification of the expression type checker in
  `java-type-checker/java_type_checker/expressions.py`.

  The expression engine (`expressions.py`) is embedded directly from the
  source.  The type model (`types.py` is not part of the sources at hand)
  is modelled from the specification: a nominal type is identified by its
  unique name, and carries a set of direct supertypes, a method table and
  an optional constructor; primitives, `void` and `null` have no methods
  and no constructor.

  Python exceptions are modelled with `Except`:
  `JavaTypeError msg` raises are the structured `JavaTypeError` values
  below (each constructor corresponds to one `raise` site and carries
  exactly the data interpolated into that site's format string, rendered
  by `JavaTypeError.message`), while an `AttributeError` arising from an
  attribute access on Python `None` (e.g. `method_named(...)` returning
  `None` followed by `.return_type`, or a missing `constructor` followed
  by `.argument_types`) is `PyError.attributeError`.

  A pitfall of the source, faithfully preserved here: the Python
  expression `(Type.int or Type.boolean or Type.double or Type.void)`
  evaluates to its first truthy operand, i.e. to `Type.int`; hence
  `x is (Type.int or Type.boolean or Type.double or Type.void)` compares
  `x` against `Type.int` only, and likewise
  `x is not (Type.int or ...)` is `x is not Type.int`.  The embedding
  therefore compares against `Ty.int` alone at those places.
-/

namespace JavaTypeChecker

/-- Nominal type identity: per the spec, a type's unique name is its
identity, and both Python `==` and `is` on `Type` singletons coincide
with name equality. -/
abbrev TyName := String

/-- Modelled from the spec: the distinguished singleton `Type.int`. -/
def Ty.int : TyName := "int"

/-- Modelled from the spec: the distinguished singleton `Type.boolean`. -/
def Ty.boolean : TyName := "boolean"

/-- Modelled from the spec: the distinguished singleton `Type.double`. -/
def Ty.double : TyName := "double"

/-- Modelled from the spec: the distinguished singleton `Type.void`. -/
def Ty.void : TyName := "void"

/-- Modelled from the spec: the distinguished sentinel `Type.null`. -/
def Ty.null : TyName := "null"

/-- Modelled from the spec: a method signature — name, ordered argument
types, return type. -/
structure JMethod where
  name : String
  argument_types : List TyName
  return_type : TyName
deriving DecidableEq, Repr

/-- Modelled from the spec: a constructor signature — ordered argument
types only. -/
structure JConstructor where
  argument_types : List TyName
deriving DecidableEq, Repr

/-- Modelled from the spec: the per-type data of the type model — the
set of direct supertypes, the method table, and at most one constructor
(`none` when the type declares no constructor; reading
`.constructor.argument_types` through `none` is an `AttributeError` in
Python). -/
structure TyInfo where
  direct_supertypes : List TyName
  methods : List JMethod
  constructor : Option JConstructor
deriving DecidableEq, Repr

/-- The type model, supplied fully formed by the caller: every type name
is mapped to its `TyInfo`. -/
abbrev TypeEnv := TyName → TyInfo

/-- Modelled from the spec: `Type.method_named(name)` — look the method
up in this type's own method table; `none` when absent (Python returns a
falsy `None`), supertypes are not searched. -/
def methodNamed (env : TypeEnv) (t : TyName) (m : String) : Option JMethod :=
  (env t).methods.find? (fun meth => meth.name == m)

/-- The structured content of each `raise JavaTypeError(...)` site of
`expressions.py`; `message` below renders the exact source format
strings. -/
inductive JavaTypeError where
  | noMethodsOnPrimitive (receiver_type : TyName)
  | unknownMethod (receiver_type : TyName) (method_name : String)
  | arityMismatch (call : String) (expected : Nat) (got : Nat)
  | argumentTypeMismatch (call : String) (expected : List TyName) (got : List TyName)
  | primitiveNotInstantiable (instantiated_type : TyName)
  | nullNotInstantiable
deriving DecidableEq, Repr

/-- A Python exception raised by the engine: either a `JavaTypeError`,
or an `AttributeError` from an attribute access on `None`. -/
inductive PyError where
  | java (err : JavaTypeError)
  | attributeError
deriving DecidableEq, Repr

/-- `names` helper of `expressions.py`: pretty list of type names. -/
def names (named_things : List TyName) : String :=
  "(" ++ String.intercalate ", " named_things ++ ")"

/-- The exact message each `raise` site of `expressions.py` formats. -/
def JavaTypeError.message : JavaTypeError → String
  | .noMethodsOnPrimitive t => "Type " ++ t ++ " does not have methods"
  | .unknownMethod t m => t ++ " has no method named " ++ m
  | .arityMismatch c e g =>
      "Wrong number of arguments for " ++ c ++ ": expected " ++ toString e
        ++ ", got " ++ toString g
  | .argumentTypeMismatch c e g =>
      c ++ " expects arguments of type " ++ names e ++ ", but got " ++ names g
  | .primitiveNotInstantiable t => "Type " ++ t ++ " is not instantiable"
  | .nullNotInstantiable => "Type null is not instantiable"

mutual
/-- The expression AST of `expressions.py`: `Variable`, `Literal`,
`NullLiteral`, `MethodCall`, `ConstructorCall`.  Argument tuples are
represented by `ExpressionList`. -/
inductive Expression where
  | var (name : String) (declared_type : TyName)
  | literal (value : String) (type : TyName)
  | nullLiteral
  | methodCall (receiver : Expression) (method_name : String) (args : ExpressionList)
  | constructorCall (instantiated_type : TyName) (args : ExpressionList)

/-- An ordered list of argument expressions (the `*args` tuple). -/
inductive ExpressionList where
  | nil
  | cons (head : Expression) (tail : ExpressionList)
end

/-- `len(self.args)`. -/
def ExpressionList.length : ExpressionList → Nat
  | .nil => 0
  | .cons _ as => as.length + 1

/-- `Expression.static_type()`:
`Variable` returns its declared type, `Literal` its type, `NullLiteral`
always `Type.null`, `ConstructorCall` its instantiated type, and
`MethodCall` evaluates
`self.receiver.static_type().method_named(self.method_name).return_type`
— when `method_named` yields `None`, the `.return_type` access raises
`AttributeError`. -/
def staticType (env : TypeEnv) : Expression → Except PyError TyName
  | .var _ t => .ok t
  | .literal _ t => .ok t
  | .nullLiteral => .ok Ty.null
  | .methodCall recv m _ =>
    match staticType env recv with
    | .error e => .error e
    | .ok rt =>
      match methodNamed env rt m with
      | some meth => .ok meth.return_type
      | none => .error .attributeError
  | .constructorCall t _ => .ok t

/-- The `passedArguments` loop of both call variants: each argument's
`static_type()` in order, the first raised exception aborting the
loop. -/
def staticTypes (env : TypeEnv) : ExpressionList → Except PyError (List TyName)
  | .nil => .ok []
  | .cons a as =>
    match staticType env a with
    | .error e => .error e
    | .ok t =>
      match staticTypes env as with
      | .error e => .error e
      | .ok ts => .ok (t :: ts)

mutual
/-- `Expression.check_types()`.  `Variable.check_types` returns
`self.declared_type` and `Literal.check_types` returns `self.type`
(`NullLiteral` inherits the latter with `self.type = Type.null`); the
call variants return Python `None`, modelled as `Option.none`.

`MethodCall.check_types`, in source order:
the primitive-receiver test (which, through the Python `or`-chain,
compares against `Type.int` only), the `method_named` presence test, the
arity test, the `passedArguments` pre-pass of `static_type()` calls, and
the per-argument loop `checkArgsM`.

`ConstructorCall.check_types`, in source order: the primitive test
(again `Type.int` only), the null test, the unconditional read of
`self.instantiated_type.constructor.argument_types` (an
`AttributeError` when no constructor is declared), the arity test, the
`passedArguments` pre-pass, and the per-argument loop `checkArgsC`. -/
def checkTypes (env : TypeEnv) : Expression → Except PyError (Option TyName)
  | .var _ t => .ok (some t)
  | .literal _ t => .ok (some t)
  | .nullLiteral => .ok (some Ty.null)
  | .methodCall recv m args =>
    match staticType env recv with
    | .error e => .error e
    | .ok rt =>
      if rt = Ty.int then
        .error (.java (.noMethodsOnPrimitive rt))
      else
        match methodNamed env rt m with
        | none => .error (.java (.unknownMethod rt m))
        | some meth =>
          if meth.argument_types.length ≠ args.length then
            .error (.java (.arityMismatch (rt ++ "." ++ m ++ "()")
              meth.argument_types.length args.length))
          else
            match staticTypes env args with
            | .error e => .error e
            | .ok passed =>
              checkArgsM env (rt ++ "." ++ meth.name ++ "()")
                meth.argument_types passed args passed meth.argument_types
  | .constructorCall t args =>
    if t = Ty.int then
      .error (.java (.primitiveNotInstantiable t))
    else if t = Ty.null then
      .error (.java .nullNotInstantiable)
    else
      match (env t).constructor with
      | none => .error .attributeError
      | some ctor =>
        if ctor.argument_types.length ≠ args.length then
          .error (.java (.arityMismatch (t ++ " constructor")
            ctor.argument_types.length args.length))
        else
          match staticTypes env args with
          | .error e => .error e
          | .ok passed =>
            checkArgsC env (t ++ " constructor")
              ctor.argument_types passed args passed ctor.argument_types

/-- The argument loop of `MethodCall.check_types` (lines 126–138): at
each position, `self.args[i].check_types()` first, then accept when
`passed[i] == expected[i]`, or when
`expected[i] in passed[i].direct_supertypes or passed[i] == Type.null`;
otherwise raise `ArgumentTypeMismatch` carrying the full expected and
passed lists.  `expectedAll`/`passedAll` are those full lists; the last
equation is unreachable from `checkTypes` since the arity test equates
the lengths. -/
def checkArgsM (env : TypeEnv) (call : String)
    (expectedAll passedAll : List TyName) :
    ExpressionList → List TyName → List TyName → Except PyError (Option TyName)
  | .nil, _, _ => .ok none
  | .cons a as, p :: ps, e :: es =>
    match checkTypes env a with
    | .error err => .error err
    | .ok _ =>
      if p = e then
        checkArgsM env call expectedAll passedAll as ps es
      else if e ∈ (env p).direct_supertypes ∨ p = Ty.null then
        checkArgsM env call expectedAll passedAll as ps es
      else
        .error (.java (.argumentTypeMismatch call expectedAll passedAll))
  | .cons _ _, _, _ => .ok none

/-- The argument loop of `ConstructorCall.check_types` (lines 185–198):
accept when `passed[i] == expected[i]`, or
`expected[i] in passed[i].direct_supertypes`, or
`passed[i] == Type.null and expected[i] is not Type.int` (the Python
`or`-chain collapsing the intended primitive list to `Type.int`);
otherwise raise `ArgumentTypeMismatch` with the full lists. -/
def checkArgsC (env : TypeEnv) (call : String)
    (expectedAll passedAll : List TyName) :
    ExpressionList → List TyName → List TyName → Except PyError (Option TyName)
  | .nil, _, _ => .ok none
  | .cons a as, p :: ps, e :: es =>
    match checkTypes env a with
    | .error err => .error err
    | .ok _ =>
      if p = e then
        checkArgsC env call expectedAll passedAll as ps es
      else if e ∈ (env p).direct_supertypes then
        checkArgsC env call expectedAll passedAll as ps es
      else if p = Ty.null ∧ e ≠ Ty.int then
        checkArgsC env call expectedAll passedAll as ps es
      else
        .error (.java (.argumentTypeMismatch call expectedAll passedAll))
  | .cons _ _, _, _ => .ok none
end

/-- The `TyInfo` of a type the caller never registered: no supertypes,
no methods, no constructor — also the data of the primitives, `void`
and `null` per the spec's invariants. -/
def defaultInfo : TyInfo := ⟨[], [], none⟩

/-- A small concrete type model used for witnesses: `Object`;
`Animal <: Object`; `Dog <: Animal`; `Puppy <: Dog` (a grandchild of
`Animal`); `Host` with methods `feed(Animal)`, `takesInt(int)`,
`two(Animal, Animal)` and `noargs()` and constructor `(int)`;
`BoolBox` with constructor `(boolean)`; `NoCtor` with no declared
constructor.  Primitives, `void` and `null` fall to `defaultInfo`. -/
def testEnv : TypeEnv := fun n =>
  if n = "Object" then ⟨[], [], some ⟨[]⟩⟩
  else if n = "Animal" then ⟨["Object"], [], some ⟨[]⟩⟩
  else if n = "Dog" then ⟨["Animal"], [], some ⟨[]⟩⟩
  else if n = "Puppy" then ⟨["Dog"], [], some ⟨[]⟩⟩
  else if n = "Host" then
    ⟨["Object"],
      [⟨"feed", ["Animal"], Ty.void⟩,
       ⟨"takesInt", [Ty.int], Ty.void⟩,
       ⟨"two", ["Animal", "Animal"], Ty.void⟩,
       ⟨"noargs", [], Ty.int⟩],
      some ⟨[Ty.int]⟩⟩
  else if n = "BoolBox" then ⟨["Object"], [], some ⟨[Ty.boolean]⟩⟩
  else if n = "NoCtor" then ⟨["Object"], [], none⟩
  else defaultInfo

/-- State-threaded rendering of `static_type()`: the same translation
as `staticType`, but every case additionally returns the expression
node (reconstructed from the nodes its child calls return), so that
absence of mutation is a provable statement rather than a modelling
assumption.  The source contains no field assignment outside
`__init__`, hence every case returns the node built from unchanged
parts; the repeated Python calls to the same accessor are evaluated
once, justified by the frame theorem below. -/
def staticTypeFr (env : TypeEnv) : Expression → Except PyError TyName × Expression
  | .var n t => (.ok t, .var n t)
  | .literal v t => (.ok t, .literal v t)
  | .nullLiteral => (.ok Ty.null, .nullLiteral)
  | .methodCall recv m args =>
    match staticTypeFr env recv with
    | (.error e, recv') => (.error e, .methodCall recv' m args)
    | (.ok rt, recv') =>
      match methodNamed env rt m with
      | some meth => (.ok meth.return_type, .methodCall recv' m args)
      | none => (.error .attributeError, .methodCall recv' m args)
  | .constructorCall t args => (.ok t, .constructorCall t args)

/-- State-threaded rendering of the `passedArguments` pre-pass. -/
def staticTypesFr (env : TypeEnv) :
    ExpressionList → Except PyError (List TyName) × ExpressionList
  | .nil => (.ok [], .nil)
  | .cons a as =>
    match staticTypeFr env a with
    | (.error e, a') => (.error e, .cons a' as)
    | (.ok t, a') =>
      match staticTypesFr env as with
      | (.error e, as') => (.error e, .cons a' as')
      | (.ok ts, as') => (.ok (t :: ts), .cons a' as')

mutual
/-- State-threaded rendering of `check_types()`: identical case
structure to `checkTypes`, each case also returning the expression
node rebuilt from the nodes returned by its child calls.  The
`passedArguments` pre-pass only invokes `static_type()`, which the
theorem `staticTypeFr_spec` below proves node-preserving (the source's
`static_type` implementations contain no assignment), so the pre-pass
is taken from the pure `staticTypes` and the loop is threaded over the
argument list as the pre-pass left it — i.e. unchanged. -/
def checkTypesFr (env : TypeEnv) :
    Expression → Except PyError (Option TyName) × Expression
  | .var n t => (.ok (some t), .var n t)
  | .literal v t => (.ok (some t), .literal v t)
  | .nullLiteral => (.ok (some Ty.null), .nullLiteral)
  | .methodCall recv m args =>
    match staticTypeFr env recv with
    | (.error e, recv') => (.error e, .methodCall recv' m args)
    | (.ok rt, recv') =>
      if rt = Ty.int then
        (.error (.java (.noMethodsOnPrimitive rt)), .methodCall recv' m args)
      else
        match methodNamed env rt m with
        | none => (.error (.java (.unknownMethod rt m)), .methodCall recv' m args)
        | some meth =>
          if meth.argument_types.length ≠ args.length then
            (.error (.java (.arityMismatch (rt ++ "." ++ m ++ "()")
              meth.argument_types.length args.length)), .methodCall recv' m args)
          else
            match staticTypes env args with
            | .error e => (.error e, .methodCall recv' m args)
            | .ok passed =>
              match checkArgsMFr env (rt ++ "." ++ meth.name ++ "()")
                  meth.argument_types passed args passed meth.argument_types with
              | (res, args') => (res, .methodCall recv' m args')
  | .constructorCall t args =>
    if t = Ty.int then
      (.error (.java (.primitiveNotInstantiable t)), .constructorCall t args)
    else if t = Ty.null then
      (.error (.java .nullNotInstantiable), .constructorCall t args)
    else
      match (env t).constructor with
      | none => (.error .attributeError, .constructorCall t args)
      | some ctor =>
        if ctor.argument_types.length ≠ args.length then
          (.error (.java (.arityMismatch (t ++ " constructor")
            ctor.argument_types.length args.length)), .constructorCall t args)
        else
          match staticTypes env args with
          | .error e => (.error e, .constructorCall t args)
          | .ok passed =>
            match checkArgsCFr env (t ++ " constructor")
                ctor.argument_types passed args passed ctor.argument_types with
            | (res, args') => (res, .constructorCall t args')

/-- State-threaded rendering of the method-call argument loop. -/
def checkArgsMFr (env : TypeEnv) (call : String)
    (expectedAll passedAll : List TyName) :
    ExpressionList → List TyName → List TyName →
      Except PyError (Option TyName) × ExpressionList
  | .nil, _, _ => (.ok none, .nil)
  | .cons a as, p :: ps, e :: es =>
    match checkTypesFr env a with
    | (.error err, a') => (.error err, .cons a' as)
    | (.ok _, a') =>
      if p = e then
        match checkArgsMFr env call expectedAll passedAll as ps es with
        | (res, as') => (res, .cons a' as')
      else if e ∈ (env p).direct_supertypes ∨ p = Ty.null then
        match checkArgsMFr env call expectedAll passedAll as ps es with
        | (res, as') => (res, .cons a' as')
      else
        (.error (.java (.argumentTypeMismatch call expectedAll passedAll)),
          .cons a' as)
  | .cons a as, _, _ => (.ok none, .cons a as)

/-- State-threaded rendering of the constructor-call argument loop. -/
def checkArgsCFr (env : TypeEnv) (call : String)
    (expectedAll passedAll : List TyName) :
    ExpressionList → List TyName → List TyName →
      Except PyError (Option TyName) × ExpressionList
  | .nil, _, _ => (.ok none, .nil)
  | .cons a as, p :: ps, e :: es =>
    match checkTypesFr env a with
    | (.error err, a') => (.error err, .cons a' as)
    | (.ok _, a') =>
      if p = e then
        match checkArgsCFr env call expectedAll passedAll as ps es with
        | (res, as') => (res, .cons a' as')
      else if e ∈ (env p).direct_supertypes then
        match checkArgsCFr env call expectedAll passedAll as ps es with
        | (res, as') => (res, .cons a' as')
      else if p = Ty.null ∧ e ≠ Ty.int then
        match checkArgsCFr env call expectedAll passedAll as ps es with
        | (res, as') => (res, .cons a' as')
      else
        (.error (.java (.argumentTypeMismatch call expectedAll passedAll)),
          .cons a' as)
  | .cons a as, _, _ => (.ok none, .cons a as)
end

/-- C1: the claim says a receiver of any primitive type (int, boolean,
double) or void raises `NoMethodsOnPrimitive`; on the code, the Python
`or`-chain in the receiver test collapses to `Type.int`, so only an
`int` receiver raises it — a boolean, double or void receiver slips past
to the method lookup and raises `UnknownMethod` instead (primitives
having no methods). -/
theorem c1_primitive_receiver_guard_only_catches_int :
    checkTypes testEnv (.methodCall (.var "i" Ty.int) "m" .nil)
      = .error (.java (.noMethodsOnPrimitive Ty.int))
    ∧ checkTypes testEnv (.methodCall (.var "b" Ty.boolean) "m" .nil)
      = .error (.java (.unknownMethod Ty.boolean "m"))
    ∧ checkTypes testEnv (.methodCall (.var "d" Ty.double) "m" .nil)
      = .error (.java (.unknownMethod Ty.double "m"))
    ∧ checkTypes testEnv (.methodCall (.var "v" Ty.void) "m" .nil)
      = .error (.java (.unknownMethod Ty.void "m")) :=
  ⟨rfl, rfl, rfl, rfl⟩

/-- C4: the claim says instantiating any primitive or void raises
`PrimitiveNotInstantiable`; on the code only `int` does, because the
same `or`-chain collapses to `Type.int`.  A boolean, double or void
instantiation falls through to the unconditional
`constructor.argument_types` read and dies with `AttributeError` (those
types have no constructor).  The null branch does raise
`NullNotInstantiable` as claimed. -/
theorem c4_instantiation_guard_only_catches_int :
    checkTypes testEnv (.constructorCall Ty.int .nil)
      = .error (.java (.primitiveNotInstantiable Ty.int))
    ∧ checkTypes testEnv (.constructorCall Ty.null .nil)
      = .error (.java .nullNotInstantiable)
    ∧ checkTypes testEnv (.constructorCall Ty.boolean .nil)
      = .error .attributeError
    ∧ checkTypes testEnv (.constructorCall Ty.double .nil)
      = .error .attributeError
    ∧ checkTypes testEnv (.constructorCall Ty.void .nil)
      = .error .attributeError :=
  ⟨rfl, rfl, rfl, rfl, rfl⟩

/-- C3 counterexample: the claim says a null argument is rejected with
`ArgumentTypeMismatch` whenever the parameter type is a primitive; but
`MethodCall`'s loop accepts `passed[i] == Type.null` unconditionally, so
`Host.takesInt(null)` — parameter type `int` — checks successfully. -/
theorem c3_counterexample_null_accepted_for_int_parameter :
    checkTypes testEnv (.methodCall (.var "h" "Host") "takesInt"
      (.cons .nullLiteral .nil)) = .ok none :=
  rfl

/-- C6 counterexample: the claim says `MethodCall.static_type()` never
raises when the receiver's type lacks the named method; but the code
evaluates `method_named(...).return_type`, so an absent method makes the
`.return_type` access on `None` raise `AttributeError`
(`Object` has no method `foo`). -/
theorem c6_counterexample_staticType_raises_on_absent_method :
    staticType testEnv (.methodCall (.var "o" "Object") "foo" .nil)
      = .error .attributeError :=
  rfl

/-- C7 counterexample: the claim says each argument subtree is
recursively validated before that argument's static type is computed.
In the code the `passedArguments` pre-pass computes every argument's
`static_type()` before any argument's `check_types()` runs: here the
argument's own validation would raise `UnknownMethod` (second
conjunct), yet the enclosing `Host.feed(...)` call raises the
`AttributeError` produced by the argument's `static_type()` (first
conjunct) — so validation did not come first. -/
theorem c7_counterexample_static_type_pass_precedes_validation :
    checkTypes testEnv (.methodCall (.var "h" "Host") "feed"
      (.cons (.methodCall (.var "o" "Object") "foo" .nil) .nil))
      = .error .attributeError
    ∧ checkTypes testEnv (.methodCall (.var "o" "Object") "foo" .nil)
      = .error (.java (.unknownMethod "Object" "foo")) :=
  ⟨rfl, rfl⟩

/-- C9 counterexample: the claim says `check_types()` produces no return
value on success; but `Variable.check_types` ends with
`return self.declared_type`, so checking the variable `x : int` returns
the type `int` (Python `None` is modelled as `Option.none`, and the
returned value is `some`). -/
theorem c9_counterexample_variable_check_types_returns_a_value :
    checkTypes testEnv (.var "x" Ty.int) = .ok (some Ty.int)
    ∧ some Ty.int ≠ (none : Option TyName) :=
  ⟨rfl, by simp⟩

/-- C2: argument acceptability is exactly one level of the supertype
graph.  For a call whose shallow checks pass and whose method expects
the single parameter type `P`, an argument variable of declared type `A`
is accepted iff `A = P`, or `P` is among `A`'s direct supertypes, or `A`
is the null-type; the decision reads only `(env A).direct_supertypes`,
never recursing, so a grandchild of `P` is rejected unless the caller
wired the intermediate edge directly. -/
theorem c2_argument_acceptance_is_one_level
    (env : TypeEnv) (rn an m : String) (R A P ret : TyName)
    (hR : R ≠ Ty.int) (hm : methodNamed env R m = some ⟨m, [P], ret⟩) :
    checkTypes env (.methodCall (.var rn R) m (.cons (.var an A) .nil)) = .ok none
      ↔ (A = P ∨ P ∈ (env A).direct_supertypes ∨ A = Ty.null) := by
  show (if R = Ty.int then _ else _) = _ ↔ _
  rw [if_neg hR, hm]
  by_cases h1 : A = P
  · simp [checkArgsM, checkTypes, staticTypes, staticType, ExpressionList.length, h1]
  · by_cases h2 : P ∈ (env A).direct_supertypes ∨ A = Ty.null
    · simp [checkArgsM, checkTypes, staticTypes, staticType, ExpressionList.length, h1, h2]
    · simp [checkArgsM, checkTypes, staticTypes, staticType, ExpressionList.length, h1, h2]

/-- C2 witness: in the concrete model, `Puppy` is two levels below
`Animal` (`Puppy <: Dog <: Animal`), so `Host.feed(puppy)` is accepted
exactly when the right-hand side holds — and it does not, since
`Puppy`'s direct supertypes are only `["Dog"]`. -/
theorem c2_argument_acceptance_is_one_level_witness :
    checkTypes testEnv (.methodCall (.var "h" "Host") "feed"
      (.cons (.var "p" "Puppy") .nil)) = .ok none
      ↔ ("Puppy" = "Animal" ∨ "Animal" ∈ (testEnv "Puppy").direct_supertypes
          ∨ "Puppy" = Ty.null) :=
  c2_argument_acceptance_is_one_level testEnv "h" "p" "feed" "Host" "Puppy"
    "Animal" Ty.void (by decide) rfl

/-- C5: once the receiver guard and the method (resp. constructor)
lookup succeed, any mismatch between the declared parameter count and
the supplied argument count raises `ArityMismatch` naming the call and
both counts — for every possible argument list, so the arity error
masks any type error inside the arguments. -/
theorem c5_arity_error_masks_argument_errors :
    (∀ (env : TypeEnv) (recv : Expression) (m : String) (args : ExpressionList)
        (rt : TyName) (meth : JMethod),
      staticType env recv = .ok rt → rt ≠ Ty.int →
      methodNamed env rt m = some meth →
      meth.argument_types.length ≠ args.length →
      checkTypes env (.methodCall recv m args)
        = .error (.java (.arityMismatch (rt ++ "." ++ m ++ "()")
            meth.argument_types.length args.length)))
  ∧ (∀ (env : TypeEnv) (T : TyName) (args : ExpressionList) (ctor : JConstructor),
      T ≠ Ty.int → T ≠ Ty.null → (env T).constructor = some ctor →
      ctor.argument_types.length ≠ args.length →
      checkTypes env (.constructorCall T args)
        = .error (.java (.arityMismatch (T ++ " constructor")
            ctor.argument_types.length args.length))) := by
  constructor
  · intro env recv m args rt meth hs hR hm hlen
    simp only [checkTypes, hs, if_neg hR, hm, if_pos hlen]
  · intro env T args ctor hT hN hc hlen
    simp only [checkTypes, if_neg hT, if_neg hN, hc, if_pos hlen]

/-- C5 witness: `Host.noargs()` declares zero parameters; calling it
with one argument (a null literal, which would also be type-acceptable
nowhere) raises the arity error `expected 0, got 1`. -/
theorem c5_arity_error_masks_argument_errors_witness :
    checkTypes testEnv (.methodCall (.var "h" "Host") "noargs"
      (.cons .nullLiteral .nil))
      = .error (.java (.arityMismatch ("Host" ++ "." ++ "noargs" ++ "()") 0 1)) :=
  c5_arity_error_masks_argument_errors.1 testEnv (.var "h" "Host") "noargs"
    (.cons .nullLiteral .nil) "Host" ⟨"noargs", [], Ty.int⟩ rfl (by decide) rfl
    (by decide)

/-- C6 (amended): when the receiver's static type is computed and the
method lookup succeeds, `MethodCall.static_type()` returns the method's
declared return type whatever the argument list (so even on calls that
would fail `check_types()`); when the lookup fails, it raises
(`AttributeError` from `.return_type` on `None`) rather than deferring
to `check_types()`. -/
theorem c6_staticType_of_method_call :
    (∀ (env : TypeEnv) (recv : Expression) (m : String) (args : ExpressionList)
        (rt : TyName) (meth : JMethod),
      staticType env recv = .ok rt → methodNamed env rt m = some meth →
      staticType env (.methodCall recv m args) = .ok meth.return_type)
  ∧ (∀ (env : TypeEnv) (recv : Expression) (m : String) (args : ExpressionList)
        (rt : TyName),
      staticType env recv = .ok rt → methodNamed env rt m = none →
      staticType env (.methodCall recv m args) = .error .attributeError) := by
  constructor
  · intro env recv m args rt meth hs hm
    simp only [staticType, hs, hm]
  · intro env recv m args rt hs hm
    simp only [staticType, hs, hm]

/-- C6 witness: `Host.noargs` returns `int`, and `static_type()` of a
call to it still answers `int` even though the call supplies one
argument and would fail `check_types()` with an arity error. -/
theorem c6_staticType_of_method_call_witness :
    staticType testEnv (.methodCall (.var "h" "Host") "noargs"
      (.cons .nullLiteral .nil)) = .ok Ty.int :=
  c6_staticType_of_method_call.1 testEnv (.var "h" "Host") "noargs"
    (.cons .nullLiteral .nil) "Host" ⟨"noargs", [], Ty.int⟩ rfl rfl

/-- C3 (amended): a null argument is accepted whenever the parameter
type is a class type, but it is not rejected for every primitive
parameter: in `MethodCall` the loop accepts `Type.null` unconditionally
(first conjunct — any parameter type `P`, primitives included), and in
`ConstructorCall` the `or`-chain reduces the forbidden set to `int`
alone, so null is rejected with `ArgumentTypeMismatch` only for an `int`
parameter (third conjunct) and accepted for every other parameter type,
`boolean`, `double` and `void` included (second conjunct). -/
theorem c3_null_argument_rule :
    (∀ (env : TypeEnv) (rn m : String) (R P ret : TyName),
      R ≠ Ty.int → methodNamed env R m = some ⟨m, [P], ret⟩ →
      checkTypes env (.methodCall (.var rn R) m (.cons .nullLiteral .nil))
        = .ok none)
  ∧ (∀ (env : TypeEnv) (T P : TyName),
      T ≠ Ty.int → T ≠ Ty.null → (env T).constructor = some ⟨[P]⟩ →
      P ≠ Ty.int →
      checkTypes env (.constructorCall T (.cons .nullLiteral .nil)) = .ok none)
  ∧ (∀ (env : TypeEnv) (T : TyName),
      T ≠ Ty.int → T ≠ Ty.null → (env T).constructor = some ⟨[Ty.int]⟩ →
      Ty.int ∉ (env Ty.null).direct_supertypes →
      checkTypes env (.constructorCall T (.cons .nullLiteral .nil))
        = .error (.java (.argumentTypeMismatch (T ++ " constructor")
            [Ty.int] [Ty.null]))) := by
  refine ⟨?_, ?_, ?_⟩
  · intro env rn m R P ret hR hm
    show (if R = Ty.int then _ else _) = _
    rw [if_neg hR, hm]
    simp [checkArgsM, checkTypes, staticTypes, staticType, ExpressionList.length]
  · intro env T P hT hN hc hP
    show (if T = Ty.int then _ else _) = _
    rw [if_neg hT, if_neg hN, hc]
    simp [checkArgsC, checkTypes, staticTypes, staticType, ExpressionList.length, hP]
  · intro env T hT hN hc hns
    show (if T = Ty.int then _ else _) = _
    rw [if_neg hT, if_neg hN, hc]
    simp only [Ty.null, Ty.int] at hns
    simp [checkArgsC, checkTypes, staticTypes, staticType, ExpressionList.length,
      hns, Ty.null, Ty.int]

/-- C3 witness: `BoolBox`'s constructor takes a `boolean`; per the
amended rule a null argument is accepted there, and `Host`'s
constructor takes an `int`, where null is rejected with
`ArgumentTypeMismatch`. -/
theorem c3_null_argument_rule_witness :
    checkTypes testEnv (.constructorCall "BoolBox" (.cons .nullLiteral .nil))
      = .ok none
    ∧ checkTypes testEnv (.constructorCall "Host" (.cons .nullLiteral .nil))
      = .error (.java (.argumentTypeMismatch ("Host" ++ " constructor")
          [Ty.int] [Ty.null])) :=
  ⟨c3_null_argument_rule.2.1 testEnv "BoolBox" Ty.boolean (by decide) (by decide)
      rfl (by decide),
   c3_null_argument_rule.2.2 testEnv "Host" (by decide) (by decide) rfl
      (by decide)⟩

/-- C7 (amended): the engine first computes the static types of all
arguments left-to-right (the `passedArguments` pre-pass), so an error
raised there preempts every argument validation — parts one and two,
for method and constructor calls; only then does the per-position loop
run, in which the argument subtree is validated before that position's
acceptability test, so a deep error inside argument `i` is reported
before the mismatch at position `i` — parts three and four, stated on
the two loops. -/
theorem c7_argument_checking_order :
    (∀ (env : TypeEnv) (recv : Expression) (m : String) (args : ExpressionList)
        (rt : TyName) (meth : JMethod) (e : PyError),
      staticType env recv = .ok rt → rt ≠ Ty.int →
      methodNamed env rt m = some meth →
      meth.argument_types.length = args.length →
      staticTypes env args = .error e →
      checkTypes env (.methodCall recv m args) = .error e)
  ∧ (∀ (env : TypeEnv) (T : TyName) (args : ExpressionList)
        (ctor : JConstructor) (e : PyError),
      T ≠ Ty.int → T ≠ Ty.null → (env T).constructor = some ctor →
      ctor.argument_types.length = args.length →
      staticTypes env args = .error e →
      checkTypes env (.constructorCall T args) = .error e)
  ∧ (∀ (env : TypeEnv) (call : String) (expectedAll passedAll : List TyName)
        (a : Expression) (as : ExpressionList) (p e : TyName)
        (ps es : List TyName) (err : PyError),
      checkTypes env a = .error err →
      checkArgsM env call expectedAll passedAll (.cons a as) (p :: ps) (e :: es)
        = .error err)
  ∧ (∀ (env : TypeEnv) (call : String) (expectedAll passedAll : List TyName)
        (a : Expression) (as : ExpressionList) (p e : TyName)
        (ps es : List TyName) (err : PyError),
      checkTypes env a = .error err →
      checkArgsC env call expectedAll passedAll (.cons a as) (p :: ps) (e :: es)
        = .error err) := by
  refine ⟨?_, ?_, ?_, ?_⟩
  · intro env recv m args rt meth e hs hR hm hlen hst
    simp only [checkTypes, hs, if_neg hR, hm, hlen, hst]
    simp
  · intro env T args ctor e hT hN hc hlen hst
    simp only [checkTypes, if_neg hT, if_neg hN, hc, hlen, hst]
    simp
  · intro env call expectedAll passedAll a as p e ps es err h
    simp only [checkArgsM, h]
  · intro env call expectedAll passedAll a as p e ps es err h
    simp only [checkArgsC, h]

/-- C7 witness: the counterexample input replayed through the amended
rule's first part — the argument's `static_type()` pre-pass raises
`AttributeError`, and that is the call's result. -/
theorem c7_argument_checking_order_witness :
    checkTypes testEnv (.methodCall (.var "h2" "Host") "feed"
      (.cons (.methodCall (.var "o2" "Object") "foo" .nil) .nil))
      = .error .attributeError :=
  c7_argument_checking_order.1 testEnv (.var "h2" "Host") "feed"
    (.cons (.methodCall (.var "o2" "Object") "foo" .nil) .nil) "Host"
    ⟨"feed", ["Animal"], Ty.void⟩ .attributeError rfl (by decide) rfl rfl rfl

/-- C8: a constructor call on a class type with no declared constructor
never succeeds — whatever the argument list, including the empty one —
because the engine unconditionally reads
`instantiated_type.constructor.argument_types`; the failure is the
`AttributeError` of that read on the missing constructor, not one of
the named `JavaTypeError` kinds. -/
theorem c8_missing_constructor_never_succeeds
    (env : TypeEnv) (T : TyName) (args : ExpressionList)
    (hi : T ≠ Ty.int) (_hb : T ≠ Ty.boolean) (_hd : T ≠ Ty.double)
    (_hv : T ≠ Ty.void) (hn : T ≠ Ty.null)
    (hc : (env T).constructor = none) :
    checkTypes env (.constructorCall T args) = .error .attributeError := by
  simp only [checkTypes, if_neg hi, if_neg hn, hc]

/-- C8 witness: `NoCtor` declares no constructor; `new NoCtor()` with
zero arguments fails with the unnamed `AttributeError`. -/
theorem c8_missing_constructor_never_succeeds_witness :
    checkTypes testEnv (.constructorCall "NoCtor" .nil)
      = .error .attributeError :=
  c8_missing_constructor_never_succeeds testEnv "NoCtor" .nil (by decide)
    (by decide) (by decide) (by decide) (by decide) rfl

/-- Helper: when the method-call argument loop terminates without
raising, the value it returns is Python `None`. -/
theorem checkArgsM_ok_implies_none (env : TypeEnv) (call : String)
    (expectedAll passedAll : List TyName) :
    ∀ (args : ExpressionList) (ps es : List TyName) (r : Option TyName),
      checkArgsM env call expectedAll passedAll args ps es = .ok r → r = none
  | .nil, _, _, _, h => by
      simp only [checkArgsM] at h
      exact (Except.ok.inj h).symm
  | .cons a as, [], es, r, h => by
      simp only [checkArgsM] at h
      exact (Except.ok.inj h).symm
  | .cons a as, p :: ps, [], r, h => by
      simp only [checkArgsM] at h
      exact (Except.ok.inj h).symm
  | .cons a as, p :: ps, e :: es, r, h => by
      cases hc : checkTypes env a with
      | error err => simp [checkArgsM, hc] at h
      | ok v =>
        simp only [checkArgsM, hc] at h
        split at h
        · exact checkArgsM_ok_implies_none env call expectedAll passedAll as ps es r h
        · split at h
          · exact checkArgsM_ok_implies_none env call expectedAll passedAll as ps es r h
          · exact Except.noConfusion h

/-- Helper: when the constructor-call argument loop terminates without
raising, the value it returns is Python `None`. -/
theorem checkArgsC_ok_implies_none (env : TypeEnv) (call : String)
    (expectedAll passedAll : List TyName) :
    ∀ (args : ExpressionList) (ps es : List TyName) (r : Option TyName),
      checkArgsC env call expectedAll passedAll args ps es = .ok r → r = none
  | .nil, _, _, _, h => by
      simp only [checkArgsC] at h
      exact (Except.ok.inj h).symm
  | .cons a as, [], es, r, h => by
      simp only [checkArgsC] at h
      exact (Except.ok.inj h).symm
  | .cons a as, p :: ps, [], r, h => by
      simp only [checkArgsC] at h
      exact (Except.ok.inj h).symm
  | .cons a as, p :: ps, e :: es, r, h => by
      cases hc : checkTypes env a with
      | error err => simp [checkArgsC, hc] at h
      | ok v =>
        simp only [checkArgsC, hc] at h
        split at h
        · exact checkArgsC_ok_implies_none env call expectedAll passedAll as ps es r h
        · split at h
          · exact checkArgsC_ok_implies_none env call expectedAll passedAll as ps es r h
          · split at h
            · exact checkArgsC_ok_implies_none env call expectedAll passedAll as ps es r h
            · exact Except.noConfusion h

/-- C9 (amended): on success `check_types()` returns normally, but not
always without a value: `Variable.check_types` returns the declared
type, `Literal.check_types` returns the literal's type, `NullLiteral`
inherits the latter and returns the null-type, while `MethodCall` and
`ConstructorCall` return no value (Python `None`). -/
theorem c9_check_types_success_values :
    (∀ (env : TypeEnv) (n : String) (t : TyName),
      checkTypes env (.var n t) = .ok (some t))
  ∧ (∀ (env : TypeEnv) (v : String) (t : TyName),
      checkTypes env (.literal v t) = .ok (some t))
  ∧ (∀ (env : TypeEnv), checkTypes env .nullLiteral = .ok (some Ty.null))
  ∧ (∀ (env : TypeEnv) (recv : Expression) (m : String) (args : ExpressionList)
        (r : Option TyName),
      checkTypes env (.methodCall recv m args) = .ok r → r = none)
  ∧ (∀ (env : TypeEnv) (T : TyName) (args : ExpressionList) (r : Option TyName),
      checkTypes env (.constructorCall T args) = .ok r → r = none) := by
  refine ⟨fun _ _ _ => rfl, fun _ _ _ => rfl, fun _ => rfl, ?_, ?_⟩
  · intro env recv m args r h
    cases hs : staticType env recv with
    | error e => simp [checkTypes, hs] at h
    | ok rt =>
      simp only [checkTypes, hs] at h
      split at h
      · exact Except.noConfusion h
      · cases hm : methodNamed env rt m with
        | none => simp only [hm] at h; exact Except.noConfusion h
        | some meth =>
          simp only [hm] at h
          split at h
          · exact Except.noConfusion h
          · cases hst : staticTypes env args with
            | error e => simp only [hst] at h; exact Except.noConfusion h
            | ok passed =>
              simp only [hst] at h
              exact checkArgsM_ok_implies_none env _ _ _ args passed
                meth.argument_types r h
  · intro env T args r h
    simp only [checkTypes] at h
    split at h
    · exact Except.noConfusion h
    · split at h
      · exact Except.noConfusion h
      · cases hc : (env T).constructor with
        | none => simp only [hc] at h; exact Except.noConfusion h
        | some ctor =>
          simp only [hc] at h
          split at h
          · exact Except.noConfusion h
          · cases hst : staticTypes env args with
            | error e => simp only [hst] at h; exact Except.noConfusion h
            | ok passed =>
              simp only [hst] at h
              exact checkArgsC_ok_implies_none env _ _ _ args passed
                ctor.argument_types r h

/-- C9 witness: a fully valid zero-argument call returns successfully
with no value. -/
theorem c9_check_types_success_values_witness :
    checkTypes testEnv (.methodCall (.var "h" "Host") "noargs" .nil) = .ok none
    ∧ (none : Option TyName) = none :=
  ⟨rfl, c9_check_types_success_values.2.2.2.1 testEnv (.var "h" "Host") "noargs"
    .nil none rfl⟩

/-- Helper: the state-threaded `static_type()` returns the node it was
given, unchanged, together with the pure result — `static_type` writes
no field. -/
theorem staticTypeFr_spec (env : TypeEnv) :
    ∀ e : Expression, staticTypeFr env e = (staticType env e, e)
  | .var n t => rfl
  | .literal v t => rfl
  | .nullLiteral => rfl
  | .methodCall recv m args => by
      simp only [staticTypeFr, staticType, staticTypeFr_spec env recv]
      cases staticType env recv with
      | error e => rfl
      | ok rt =>
        dsimp only []
        cases methodNamed env rt m with
        | some meth => rfl
        | none => rfl
  | .constructorCall t args => rfl

/-- Helper: the state-threaded `passedArguments` pre-pass returns the
argument list unchanged, together with the pure result. -/
theorem staticTypesFr_spec (env : TypeEnv) :
    ∀ l : ExpressionList, staticTypesFr env l = (staticTypes env l, l)
  | .nil => rfl
  | .cons a as => by
      simp only [staticTypesFr, staticTypes, staticTypeFr_spec env a,
        staticTypesFr_spec env as]
      cases staticType env a with
      | error e => rfl
      | ok t =>
        cases staticTypes env as with
        | error e => rfl
        | ok ts => rfl

mutual
/-- Helper: the state-threaded `check_types()` returns the node it was
given, unchanged, together with the pure result — `check_types` writes
no field. -/
theorem checkTypesFr_spec (env : TypeEnv) :
    ∀ e : Expression, checkTypesFr env e = (checkTypes env e, e)
  | .var n t => rfl
  | .literal v t => rfl
  | .nullLiteral => rfl
  | .methodCall recv m args => by
      simp only [checkTypesFr, checkTypes, staticTypeFr_spec env recv]
      cases staticType env recv with
      | error e => rfl
      | ok rt =>
        dsimp only []
        by_cases hint : rt = Ty.int
        · simp only [if_pos hint]
        · simp only [if_neg hint]
          cases methodNamed env rt m with
          | none => rfl
          | some meth =>
            dsimp only []
            by_cases hlen : meth.argument_types.length ≠ args.length
            · simp only [if_pos hlen]
            · simp only [if_neg hlen]
              cases staticTypes env args with
              | error e => rfl
              | ok passed =>
                dsimp only []
                simp only [checkArgsMFr_spec env (rt ++ "." ++ meth.name ++ "()")
                  meth.argument_types passed args passed meth.argument_types]
  | .constructorCall t args => by
      simp only [checkTypesFr, checkTypes]
      by_cases hint : t = Ty.int
      · simp only [if_pos hint]
      · simp only [if_neg hint]
        by_cases hnull : t = Ty.null
        · simp only [if_pos hnull]
        · simp only [if_neg hnull]
          cases (env t).constructor with
          | none => rfl
          | some ctor =>
            dsimp only []
            by_cases hlen : ctor.argument_types.length ≠ args.length
            · simp only [if_pos hlen]
            · simp only [if_neg hlen]
              cases staticTypes env args with
              | error e => rfl
              | ok passed =>
                dsimp only []
                simp only [checkArgsCFr_spec env (t ++ " constructor")
                  ctor.argument_types passed args passed ctor.argument_types]

/-- Helper: the state-threaded method-call argument loop returns the
argument list unchanged, together with the pure result. -/
theorem checkArgsMFr_spec (env : TypeEnv) (call : String)
    (expectedAll passedAll : List TyName) :
    ∀ (args : ExpressionList) (ps es : List TyName),
      checkArgsMFr env call expectedAll passedAll args ps es
        = (checkArgsM env call expectedAll passedAll args ps es, args)
  | .nil, _, _ => rfl
  | .cons a as, [], es => rfl
  | .cons a as, p :: ps, [] => rfl
  | .cons a as, p :: ps, e :: es => by
      simp only [checkArgsMFr, checkArgsM, checkTypesFr_spec env a]
      cases checkTypes env a with
      | error err => rfl
      | ok v =>
        dsimp only []
        by_cases h1 : p = e
        · simp only [if_pos h1,
            checkArgsMFr_spec env call expectedAll passedAll as ps es]
        · simp only [if_neg h1]
          by_cases h2 : e ∈ (env p).direct_supertypes ∨ p = Ty.null
          · simp only [if_pos h2,
              checkArgsMFr_spec env call expectedAll passedAll as ps es]
          · simp only [if_neg h2]

/-- Helper: the state-threaded constructor-call argument loop returns
the argument list unchanged, together with the pure result. -/
theorem checkArgsCFr_spec (env : TypeEnv) (call : String)
    (expectedAll passedAll : List TyName) :
    ∀ (args : ExpressionList) (ps es : List TyName),
      checkArgsCFr env call expectedAll passedAll args ps es
        = (checkArgsC env call expectedAll passedAll args ps es, args)
  | .nil, _, _ => rfl
  | .cons a as, [], es => rfl
  | .cons a as, p :: ps, [] => rfl
  | .cons a as, p :: ps, e :: es => by
      simp only [checkArgsCFr, checkArgsC, checkTypesFr_spec env a]
      cases checkTypes env a with
      | error err => rfl
      | ok v =>
        dsimp only []
        by_cases h1 : p = e
        · simp only [if_pos h1,
            checkArgsCFr_spec env call expectedAll passedAll as ps es]
        · simp only [if_neg h1]
          by_cases h2 : e ∈ (env p).direct_supertypes
          · simp only [if_pos h2,
              checkArgsCFr_spec env call expectedAll passedAll as ps es]
          · simp only [if_neg h2]
            by_cases h3 : p = Ty.null ∧ e ≠ Ty.int
            · simp only [if_pos h3,
                checkArgsCFr_spec env call expectedAll passedAll as ps es]
            · simp only [if_neg h3]
end

/-- C10: neither `static_type()` nor `check_types()` mutates any
expression node or the type model — every state-threaded run returns
exactly the tree it was given alongside the pure result (the type
model is only ever read: no function returns or rebuilds it) — and,
being functions of the node and the read-only model, repeated calls on
the same node necessarily return the same `Type` identity. -/
theorem c10_no_mutation_and_determinism :
    (∀ (env : TypeEnv) (e : Expression),
      staticTypeFr env e = (staticType env e, e))
    ∧ (∀ (env : TypeEnv) (l : ExpressionList),
      staticTypesFr env l = (staticTypes env l, l))
    ∧ (∀ (env : TypeEnv) (e : Expression),
      checkTypesFr env e = (checkTypes env e, e)) :=
  ⟨staticTypeFr_spec, staticTypesFr_spec, checkTypesFr_spec⟩

end JavaTypeChecker
